import Mathlib

/-!
Verification of the real-time audio capture and transcription pipeline of the
conference-registration repository.

The development shallowly embeds the pipeline's pure core:

* `src/utils/audio_utils.py` — RMS computation (represented by its square,
  since `rms = sqrt(mean(square(samples)))` is non-negative and every
  comparison against a threshold `t` with `t > 0` satisfies
  `rms < t ↔ rms² < t²`, while for `t ≤ 0` the comparison `rms < t` is
  always false);
* `src/services/audio_service.py` — voice-activity detection
  (`is_voiced_chunk`) and sample accumulation (`AudioChunker`);
* `src/ui/transcription_widget.py` — the token registry (`_start_recording`),
  the bounded ingest queue push (`audio_callback`), the WAV-writing audio
  worker (`_audio_worker`), the timer-driven transcription worker
  (`_transcription_worker`), the stop logic (`_stop_recording`) and the
  transcript file layout (`_save_transcript`);
* `src/ui/mic_recorder_page.py` — the recorder worker's choice of WAV sample
  rate (`_recorder_worker`), which (unlike the transcription workers) uses
  the detected rate reported by the first WebRTC frame.

Audio samples are mono PCM16 values, embedded as `Int`; Python floats that
carry exact small decimal constants are embedded as `ℚ`.
-/

/-- Python's `sep.join(lines)`: empty string for no lines, the single line
itself for one line, and the lines interleaved with `sep` otherwise. -/
def pyJoin (sep : String) : List String → String
  | [] => ""
  | [x] => x
  | x :: y :: xs => x ++ sep ++ pyJoin sep (y :: xs)

/-- Sample rate constant shared by the transcription modules
(`SAMPLE_RATE = 48000` in `transcription_widget.py`). -/
def SAMPLE_RATE : Nat := 48000

/-- Bytes per sample (`SAMPLE_WIDTH = 2`, int16). -/
def SAMPLE_WIDTH : Nat := 2

/-- Square of `calculate_rms` from `src/utils/audio_utils.py`: mean of the
squared samples (`0` for empty input, matching the early return `0.0`).
The square root itself is not materialised; all threshold comparisons are
phrased on squares (see the module docstring). -/
def calculate_rms_sq (pcm_data : List Int) : ℚ :=
  if pcm_data.length = 0 then 0
  else ((pcm_data.map fun s : Int => ((s : ℚ)) ^ 2).sum) / pcm_data.length

/-- Fraction of samples whose absolute amplitude is at least the gate:
`np.mean(np.abs(pcm_data) >= amplitude_gate)` from `is_voiced_chunk` in
`src/services/audio_service.py`. -/
def density_at_gate (pcm_data : List Int) (amplitude_gate : Int) : ℚ :=
  ((pcm_data.filter fun s => amplitude_gate ≤ |s|).length : ℚ) / pcm_data.length

/-- `is_voiced_chunk` from `src/services/audio_service.py`: empty input is
never voiced; a chunk whose RMS is below `rms_threshold` is not voiced
(encoded on squares: for a positive threshold `rms < t ↔ rms² < t²`, and for
`t ≤ 0` the Python test `rms < float(t)` is false because `rms ≥ 0`);
otherwise the chunk is voiced iff the fraction of samples with
`|s| ≥ amplitude_gate` reaches `min_density`. -/
def is_voiced_chunk (pcm_data : List Int) (rms_threshold : Int)
    (min_density : ℚ) (amplitude_gate : Int) : Bool :=
  if pcm_data.length = 0 then false
  else if 0 < rms_threshold ∧ calculate_rms_sq pcm_data < (rms_threshold : ℚ) ^ 2 then false
  else decide (min_density ≤ density_at_gate pcm_data amplitude_gate)

/-- VAD threshold used by the transcription worker:
`int(VAD_RMS_THRESHOLD)` with `VAD_RMS_THRESHOLD = 300.0`. -/
def VAD_RMS_THRESHOLD_INT : Int := 300

/-- `VAD_SAMPLE_DENSITY = 0.12` from `transcription_widget.py`. -/
def VAD_SAMPLE_DENSITY : ℚ := 12 / 100

/-- `VAD_AMPLITUDE_GATE = 1100` from `transcription_widget.py`. -/
def VAD_AMPLITUDE_GATE : Int := 1100

/-- The transcription worker submits a drained chunk to the transcription API
iff `is_voiced_chunk` accepts it with the widget's VAD constants
(`transcription_widget.py`, lines 1001-1012: a non-voiced chunk hits
`continue` before any API interaction). -/
def worker_submits (chunk : List Int) : Bool :=
  is_voiced_chunk chunk VAD_RMS_THRESHOLD_INT VAD_SAMPLE_DENSITY VAD_AMPLITUDE_GATE

/-- Spec reading of "its aggregate RMS meets a configurable threshold":
`rms ≥ rms_threshold`, encoded on squares exactly as in
`calculate_rms_sq` (for `t ≤ 0` it holds vacuously because `rms ≥ 0`). -/
def spec_rms_meets (pcm_data : List Int) (rms_threshold : Int) : Prop :=
  rms_threshold ≤ 0 ∨ (rms_threshold : ℚ) ^ 2 ≤ calculate_rms_sq pcm_data

/-- Spec reading of the density gate with a strict bound: the fraction of
samples that *exceed* `amplitude_gate` in absolute amplitude
(`|s| > amplitude_gate`), as the specification sentence is worded. -/
def spec_density_exceeds (pcm_data : List Int) (amplitude_gate : Int) : ℚ :=
  ((pcm_data.filter fun s => amplitude_gate < |s|).length : ℚ) / pcm_data.length

/-- The VAD predicate exactly as the specification words it: RMS meets the
threshold and at least a `min_density` fraction of samples strictly exceed
`amplitude_gate` in absolute amplitude. -/
def spec_voiced (pcm_data : List Int) (rms_threshold : Int)
    (min_density : ℚ) (amplitude_gate : Int) : Prop :=
  spec_rms_meets pcm_data rms_threshold ∧
    min_density ≤ spec_density_exceeds pcm_data amplitude_gate

/-- `AudioChunker` from `src/services/audio_service.py`: configuration plus
the internal sample buffer. -/
structure AudioChunker where
  sample_rate : Nat
  chunk_secs : ℚ
  vad_rms : Int
  chunk_samples : Nat
  buffer : List Int
  deriving DecidableEq

/-- `AudioChunker.__init__`: `chunk_samples = int(sample_rate * chunk_secs)`
(truncation of a non-negative product is the floor) and an empty buffer. -/
def AudioChunker.init (sample_rate : Nat) (chunk_secs : ℚ) (vad_rms : Int) :
    AudioChunker :=
  ⟨sample_rate, chunk_secs, vad_rms, (⌊(sample_rate : ℚ) * chunk_secs⌋).toNat, []⟩

/-- `AudioChunker.push`: append the new samples; if the combined buffer holds
at least `chunk_samples` samples, emit the first `chunk_samples` of them and
keep the remainder, else keep everything and emit nothing. -/
def AudioChunker.push (ck : AudioChunker) (pcm_data : List Int) :
    Option (List Int) × AudioChunker :=
  let buf := ck.buffer ++ pcm_data
  if ck.chunk_samples ≤ buf.length then
    (some (buf.take ck.chunk_samples),
      ⟨ck.sample_rate, ck.chunk_secs, ck.vad_rms, ck.chunk_samples,
        buf.drop ck.chunk_samples⟩)
  else
    (none, ⟨ck.sample_rate, ck.chunk_secs, ck.vad_rms, ck.chunk_samples, buf⟩)

/-- Per-model cost configuration, one entry of `MODEL_COST_CONFIG` in
`transcription_widget.py`. -/
structure CostConfig where
  label : String
  input_cost_per_min : ℚ
  output_cost_per_token : ℚ
  output_tokens_per_char : ℚ

/-- The `"whisper-1"` entry of `MODEL_COST_CONFIG`:
`input_cost_per_min = 0.006`, `output_cost_per_token = 0.0`,
`output_tokens_per_char = 0.25`. -/
def whisper1Cost : CostConfig := ⟨"Whisper-1", 6 / 1000, 0, 25 / 100⟩

/-- The `"gpt-4o-mini-transcribe"` entry of `MODEL_COST_CONFIG`:
`input_cost_per_min = 0.003`, `output_cost_per_token = 5.0 / 1_000_000`,
`output_tokens_per_char = 0.25`. -/
def gpt4oMiniTranscribeCost : CostConfig :=
  ⟨"GPT-4o Mini-Transcribe", 3 / 1000, 5 / 1000000, 25 / 100⟩

/-- `_get_model_config`: dictionary lookup in `MODEL_COST_CONFIG` with the
`"whisper-1"` entry as fallback for unknown model names. -/
def get_model_config (model_name : String) : CostConfig :=
  if model_name = "whisper-1" then whisper1Cost
  else if model_name = "gpt-4o-mini-transcribe" then gpt4oMiniTranscribeCost
  else whisper1Cost

/-- Result record of `_estimate_transcription_cost`. -/
structure CostInfo where
  total : ℚ
  input_cost : ℚ
  output_cost : ℚ
  audio_minutes : ℚ
  char_count : Nat
  output_tokens : ℚ

/-- `_estimate_transcription_cost` from `transcription_widget.py`:
`input_cost = audio_minutes * input_cost_per_min`,
`output_tokens = len(transcript_text) * output_tokens_per_char`,
`output_cost = output_tokens * output_cost_per_token`,
`total = input_cost + output_cost`. -/
def estimate_transcription_cost (model_name : String) (audio_minutes : ℚ)
    (transcript_text : String) : CostInfo :=
  let config := get_model_config model_name
  let input_cost := audio_minutes * config.input_cost_per_min
  let char_count := transcript_text.length
  let output_tokens := (char_count : ℚ) * config.output_tokens_per_char
  let output_cost := output_tokens * config.output_cost_per_token
  ⟨input_cost + output_cost, input_cost, output_cost, audio_minutes, char_count,
    output_tokens⟩

/-- Transcript segment as produced by the transcription worker:
`segment_data = dict with keys time and text` (`transcription_widget.py`,
line 1035). -/
structure Segment where
  time : String
  text : String
  deriving DecidableEq

/-- Segment formatting used in `_stop_recording` (line 851) and
`_format_transcript_segments`: the stored time string, two spaces, the text
— with no brackets around the timestamp. -/
def format_segment (seg : Segment) : String :=
  seg.time ++ "  " ++ seg.text

/-- The `formatted_lines` list of `_stop_recording`: one formatted line per
stored segment, in stored order (all worker-produced segments are dicts, so
the `str(seg)` fallback branch is never taken). -/
def format_transcript_lines (segments : List Segment) : List String :=
  segments.map format_segment

/-- `final_transcript = "\n".join(formatted_lines)` from `_stop_recording`. -/
def final_transcript (segments : List Segment) : String :=
  pyJoin "\n" (format_transcript_lines segments)

/-- The separator row `'=' * 60` of the transcript header. -/
def transcript_eq_row : String := String.mk (List.replicate 60 '=')

/-- Header built by `_save_transcript` (`transcription_widget.py`, lines
1103-1113): the f-string literal with the timestamp and the WAV file name
interpolated; `f"{SAMPLE_RATE} Hz"` is the constant `"48000 Hz"` and the
model line is the fixed string `"OpenAI Whisper (whisper-1)"`. -/
def transcript_header (ts wav_name : String) : String :=
  "語音轉錄結果" ++ "\n" ++
  "時間：" ++ ts ++ "\n" ++
  "音訊檔案：" ++ wav_name ++ "\n" ++
  "採樣率：48000 Hz" ++ "\n" ++
  "模型：OpenAI Whisper (whisper-1)" ++ "\n" ++
  "格式：yyyy-mm-dd hh:mi:ss + 逐字稿內容" ++ "\n" ++
  "\n" ++ transcript_eq_row ++ "\n" ++ "\n"

/-- Content of the transcript file written by `_save_transcript`: it writes
the header and then the formatted transcript (`f.write(header)` followed by
`f.write(transcript)`). -/
def save_transcript_content (ts wav_name transcript : String) : String :=
  transcript_header ts wav_name ++ transcript

/-- The header of the transcript file, as a list of its lines: title,
timestamp, source WAV file name, sample rate, model, format hint, a blank
line, the separator row, and a final blank line. -/
def transcript_header_lines (ts wav_name : String) : List String :=
  ["語音轉錄結果", "時間：" ++ ts, "音訊檔案：" ++ wav_name,
    "採樣率：48000 Hz", "模型：OpenAI Whisper (whisper-1)",
    "格式：yyyy-mm-dd hh:mi:ss + 逐字稿內容", "", transcript_eq_row, ""]

/-- Audio frame handed over by the capture transport: mono int16 samples
plus the sample rate the transport reports for the frame
(`av.AudioFrame.sample_rate`). -/
structure Frame where
  samples : List Int
  sample_rate : Nat
  deriving DecidableEq

/-- Clipping to the int16 range, `np.clip(x, -32768, 32767)`. -/
def int16_clip (x : Int) : Int := max (-32768) (min 32767 x)

/-- `AUDIO_GAIN = 2.0` from `transcription_widget.py`; multiplication of an
int16 sample by `2.0` is exact, so the gain is embedded as the integer 2. -/
def AUDIO_GAIN : Int := 2

/-- Gain stage of `process_audio_frame` from `src/services/audio_service.py`
for input that is already mono int16 (the format the WebRTC transport
delivers here): each sample is scaled by the gain and clipped to the int16
range. -/
def process_audio_frame_gain (samples : List Int) (gain : Int) : List Int :=
  samples.map fun s => int16_clip (s * gain)

/-- Item of the per-token ingest queue: the `(pcm_bytes, rms)` pair pushed by
`audio_callback`. The PCM payload is kept as the sample list (its byte
length is twice the sample count, int16); the RMS slot carries the squared
RMS, consistently with `calculate_rms_sq`. -/
structure QItem where
  pcm : List Int
  rms : ℚ
  deriving DecidableEq

/-- Byte length of the queued PCM payload: `len(pcm_array.tobytes())`,
i.e. two bytes per int16 sample. -/
def pcm_bytes_len (it : QItem) : Nat := SAMPLE_WIDTH * it.pcm.length

/-- The queue item built by `audio_callback` from a frame: the processed PCM
samples and their RMS. The item deliberately carries no sample rate — the
callback pushes only `(pcm_bytes, rms)`. -/
def audio_callback_item (f : Frame) : QItem :=
  let pcm := process_audio_frame_gain f.samples AUDIO_GAIN
  ⟨pcm, calculate_rms_sq pcm⟩

/-- The push performed by `audio_callback` into the per-token
`queue.Queue(maxsize=128)`: `put_nowait` appends when a slot is free and
raises `queue.Full` otherwise, which the callback catches with `pass`, so a
full queue drops the item and nothing propagates to the transport. -/
def audio_callback_put (q : List QItem) (it : QItem) : List QItem :=
  if q.length < 128 then q ++ [it] else q

/-- Parameters of an open `wave` writer: channels, sample width, frame
rate. -/
structure WavParams where
  nchannels : Nat
  sampwidth : Nat
  framerate : Nat
  deriving DecidableEq

/-- WAV parameters used by `_audio_worker` in `transcription_widget.py`
(lines 936-943) and `transcription_page.py` (lines 570-578):
`setnchannels(1)`, `setsampwidth(SAMPLE_WIDTH)`,
`setframerate(SAMPLE_RATE)` — the module constant, independent of any
frame-reported rate. -/
def widget_wav_open_params : WavParams := ⟨1, SAMPLE_WIDTH, SAMPLE_RATE⟩

/-- WAV parameters used by `_recorder_worker` in `mic_recorder_page.py`
(lines 279-287): mono, `SAMPLE_WIDTH`, and
`stats.detected_sample_rate if stats.detected_sample_rate else SAMPLE_RATE`
(a zero detected rate is falsy and falls back to the constant). -/
def recorder_wav_open_params (detected_sample_rate : Nat) : WavParams :=
  ⟨1, SAMPLE_WIDTH, if detected_sample_rate ≠ 0 then detected_sample_rate
    else SAMPLE_RATE⟩

/-- Detected sample rate recorded by the mic recorder's `audio_callback` on
its first frame (`mic_recorder_page.py`, lines 147-153):
`stats.detected_sample_rate = orig_rate` with `orig_rate =
frame.sample_rate`. -/
def detected_rate_after_first_frame (f : Frame) : Nat := f.sample_rate

/-- State of `_audio_worker`: the lazily opened WAV writer (its parameters),
the running `bytes_written` counter and the last stored RMS. -/
structure AudioWorkerState where
  writer : Option WavParams
  bytes_written : Nat
  last_rms : ℚ
  deriving DecidableEq

/-- Initial worker state: no writer opened, zero bytes written
(`_bytes_written[token] = 0`, `_last_rms[token] = 0.0`). -/
def audio_worker_init : AudioWorkerState := ⟨none, 0, 0⟩

/-- One dequeued real item in `_audio_worker`: if no writer is open yet, the
WAV file is opened with the widget parameters; the item's bytes are written
and `bytes_written` grows by `len(pcm_bytes)`; `last_rms` is updated. -/
def audio_worker_step (s : AudioWorkerState) (it : QItem) : AudioWorkerState :=
  ⟨some (s.writer.getD widget_wav_open_params),
    s.bytes_written + pcm_bytes_len it, it.rms⟩

/-- The loop of `_audio_worker` over the sequence of queue receptions:
`none` is the sentinel (`item is None`) that breaks the loop, every other
item is processed by `audio_worker_step`. Timeout wake-ups
(`queue.Empty` → `continue`) deliver nothing and are not part of the
sequence. -/
def audio_worker_run (s : AudioWorkerState) : List (Option QItem) → AudioWorkerState
  | [] => s
  | none :: _ => s
  | some it :: rest => audio_worker_run (audio_worker_step s it) rest

/-- Status message selection in `_stop_recording` (lines 862-875): if the
WAV file exists, a size above the 44-byte header together with a non-empty
transcript yields the success message, otherwise the too-short / no-speech
message; a missing file yields the file-missing message. -/
def stop_status_message (file_exists : Bool) (file_size : Nat)
    (final_transcript_text : String) : String :=
  if file_exists then
    if 44 < file_size ∧ final_transcript_text ≠ "" then "✅ 轉錄完成"
    else "⚠️ 錄音時間太短或未檢測到語音"
  else "❌ 錄音檔案不存在"

/-- Stop status for a finished ingest worker: the WAV file exists iff the
worker ever opened the writer (`wave.open` is the only creation of the
file), and its size is then the 44-byte WAV header plus the written payload
bytes. -/
def session_stop_status (s : AudioWorkerState) (final_transcript_text : String) :
    String :=
  stop_status_message s.writer.isSome (44 + s.bytes_written) final_transcript_text

/-- The module-level recording registry of `transcription_widget.py`: the
single active token and the per-token dictionaries, all guarded by
`_recorder_lock`. Tokens (`uuid4` strings) are abstracted as naturals. The
`Option` in `active_token` makes "at most one active token system-wide"
structural. -/
structure RegistryState where
  active_token : Option Nat
  active_model : Option String
  audio_queues : Nat → Option (List QItem)
  transcription_buffers : Nat → Option (List (List Int))
  transcript_segments : Nat → Option (List Segment)
  wav_paths : Nat → Option String
  bytes_written : Nat → Option Nat
  last_rms : Nat → Option ℚ
  last_transcription_time : Nat → Option ℚ
  worker_stop_events : Nat → Option Bool
  transcription_stop_events : Nat → Option Bool
  token_models : Nat → Option String
  worker_threads : Nat → Option Bool
  transcription_threads : Nat → Option Bool

/-- `_start_recording` from `transcription_widget.py` (lines 733-782): under
the lock, if `_active_token is not None` the call returns immediately,
changing nothing; otherwise it publishes the fresh token as active and
creates the per-token queue (empty, capacity 128), transcription buffer,
segment list, WAV path, stats (`bytes_written = 0`, `last_rms = 0.0`),
drain timer, both stop events (cleared) and both worker-thread entries. -/
def start_recording (s : RegistryState) (token : Nat) (model_name : String)
    (wav_path : String) (start_time : ℚ) : RegistryState :=
  if s.active_token.isSome then s
  else
    ⟨some token, some model_name,
      fun t => if t = token then some [] else s.audio_queues t,
      fun t => if t = token then some [] else s.transcription_buffers t,
      fun t => if t = token then some [] else s.transcript_segments t,
      fun t => if t = token then some wav_path else s.wav_paths t,
      fun t => if t = token then some 0 else s.bytes_written t,
      fun t => if t = token then some 0 else s.last_rms t,
      fun t => if t = token then some start_time else s.last_transcription_time t,
      fun t => if t = token then some false else s.worker_stop_events t,
      fun t => if t = token then some false else s.transcription_stop_events t,
      fun t => if t = token then some model_name else s.token_models t,
      fun t => if t = token then some true else s.worker_threads t,
      fun t => if t = token then some true else s.transcription_threads t⟩

/-- A sequence of `start()` calls applied in order, each with its token,
model, WAV path and start time. -/
def apply_start_calls (s : RegistryState) :
    List (Nat × String × String × ℚ) → RegistryState
  | [] => s
  | (token, model_name, wav_path, start_time) :: rest =>
      apply_start_calls
        (start_recording s token model_name wav_path start_time) rest

/-- An empty registry: no active token, no per-token entries. -/
def registry_empty : RegistryState :=
  ⟨none, none, fun _ => none, fun _ => none, fun _ => none, fun _ => none,
    fun _ => none, fun _ => none, fun _ => none, fun _ => none, fun _ => none,
    fun _ => none, fun _ => none, fun _ => none⟩

/-- A registry with one running session: token 1 started on the empty
registry. -/
def registry_with_session : RegistryState :=
  start_recording registry_empty 1 "whisper-1" "recording-demo.wav" 0

/-- `TRANSCRIPTION_CHUNK_DURATION = 3.0` seconds from
`transcription_widget.py`. -/
def TRANSCRIPTION_CHUNK_DURATION : ℚ := 3

/-- The drain performed by `_transcription_worker` when the elapsed time
since the last drain reaches the chunk duration (`transcription_widget.py`,
lines 990-999), executed as one atomic step under `_recorder_lock`: an empty
buffer only resets the drain timer and produces no chunk; a non-empty buffer
is concatenated (`np.concatenate`) into one chunk, cleared
(`buffer.clear()`), and the timer is reset. Before the deadline nothing
changes. The result is `(emitted chunk?, new buffer, new last-drain time)`. -/
def drain_step (buffer : List (List Int)) (last_time current_time : ℚ) :
    Option (List Int) × List (List Int) × ℚ :=
  if TRANSCRIPTION_CHUNK_DURATION ≤ current_time - last_time then
    if buffer = [] then (none, buffer, current_time)
    else (some buffer.flatten, [], current_time)
  else (none, buffer, last_time)

/-- Python's `str.strip()`: whitespace removed from both ends. -/
def pyStrip (s : String) : String :=
  String.mk (((s.data.dropWhile Char.isWhitespace).reverse.dropWhile
    Char.isWhitespace).reverse)

/-- Outcome of one call to the external transcription API: a transcript
text, or an exception (rate limit, auth failure, connection error). -/
inductive ApiOutcome where
  | ok (text : String)
  | apiError
  deriving DecidableEq

/-- Environment of one poll iteration of `_transcription_worker`: the stop
event's value at the top of the loop, the wall-clock time, the sample arrays
the callback appended to the buffer since the previous iteration, the API
outcome (consulted only if a voiced chunk is submitted) and the timestamp
string for a new segment. -/
structure TCycle where
  stop_set : Bool
  current_time : ℚ
  appended : List (List Int)
  api : ApiOutcome
  now_str : String

/-- Per-token state touched by `_transcription_worker`: the token's segment
list, the transcription buffer and the last drain time. -/
structure TState where
  segments : List Segment
  buffer : List (List Int)
  last_time : ℚ

/-- One iteration of the `while not stop_event.is_set()` loop of
`_transcription_worker` (`transcription_widget.py`, lines 981-1060),
parameterised by the external script-conversion function `s2t` (OpenCC):
before the deadline nothing is drained; at the deadline an empty buffer only
resets the timer; a drained non-voiced chunk is discarded with no API call;
for a voiced chunk the API is called — a non-empty stripped transcript
appends one segment `(now, s2t(text.strip()))`, an empty transcript appends
nothing, and an API exception is caught (`except`), appending nothing. In
every drained case the buffer ends empty: a failed chunk is never re-queued
or retried. -/
def transcription_cycle (s2t : String → String) (s : TState) (c : TCycle) :
    TState :=
  let buf := s.buffer ++ c.appended
  if TRANSCRIPTION_CHUNK_DURATION ≤ c.current_time - s.last_time then
    if buf = [] then ⟨s.segments, buf, c.current_time⟩
    else
      if worker_submits buf.flatten then
        match c.api with
        | ApiOutcome.ok t =>
            if t ≠ "" ∧ pyStrip t ≠ "" then
              ⟨s.segments ++ [⟨c.now_str, s2t (pyStrip t)⟩], [], c.current_time⟩
            else ⟨s.segments, [], c.current_time⟩
        | ApiOutcome.apiError => ⟨s.segments, [], c.current_time⟩
      else ⟨s.segments, [], c.current_time⟩
  else ⟨s.segments, buf, s.last_time⟩

/-- The worker loop over a sequence of poll iterations: it returns (the
thread ends) exactly when it observes `stop_set` at the top of an iteration;
otherwise it runs the iteration and continues. -/
def transcription_worker_run (s2t : String → String) (s : TState) :
    List TCycle → TState
  | [] => s
  | c :: rest =>
      if c.stop_set then s
      else transcription_worker_run s2t (transcription_cycle s2t s c) rest

/-- Helper: a list of zeros has a zero sum of squares, so its mean square
(the squared RMS) is zero. -/
theorem calculate_rms_sq_of_zeros (pcm_data : List Int)
    (h : ∀ s ∈ pcm_data, s = 0) : calculate_rms_sq pcm_data = 0 := by
  unfold calculate_rms_sq
  split
  · rfl
  · rw [List.sum_eq_zero, zero_div]
    intro x hx
    obtain ⟨s, hs, rfl⟩ := List.mem_map.mp hx
    simp [h s hs]

/-- C2 counterexample: the single-sample chunk `[1100]` with the widget's VAD
constants (`rms_threshold = 300`, `min_density = 0.12`,
`amplitude_gate = 1100`). Its RMS is `1100 ≥ 300` and its only sample has
absolute amplitude equal to the gate, so the code counts it
(`np.abs(...) >= amplitude_gate`) and `is_voiced_chunk` returns `True` — the
worker submits the chunk to the API — yet no sample strictly *exceeds* the
gate, so the claim's "at least `min_density` of samples exceed
`amplitude_gate`" is false: the claimed equivalence fails. -/
theorem is_voiced_chunk_gate_boundary_counterexample :
    worker_submits [1100] = true ∧
      ¬ spec_voiced [1100] VAD_RMS_THRESHOLD_INT VAD_SAMPLE_DENSITY
          VAD_AMPLITUDE_GATE := by
  constructor
  · norm_num [worker_submits, is_voiced_chunk, calculate_rms_sq, density_at_gate,
      VAD_RMS_THRESHOLD_INT, VAD_SAMPLE_DENSITY, VAD_AMPLITUDE_GATE]
  · norm_num [spec_voiced, spec_rms_meets, spec_density_exceeds, calculate_rms_sq,
      VAD_RMS_THRESHOLD_INT, VAD_SAMPLE_DENSITY, VAD_AMPLITUDE_GATE]

/-- C2 (amended): for every non-empty sample list, `is_voiced_chunk` returns
`True` iff the RMS meets the threshold and at least a `min_density` fraction
of samples have absolute amplitude **at least** `amplitude_gate` (`≥`, not
strictly above). Consequently an all-zero chunk with a positive threshold is
never voiced — the transcription worker makes no API call for it, and its
outcome is independent of the VAD gate parameters — while a chunk whose
squared RMS and whose `≥`-density both lie strictly above the widget's gates
is submitted to the API. -/
theorem is_voiced_chunk_gating (pcm_data : List Int) (rms_threshold : Int)
    (min_density : ℚ) (amplitude_gate : Int) (hne : pcm_data ≠ []) :
    (is_voiced_chunk pcm_data rms_threshold min_density amplitude_gate = true ↔
        (spec_rms_meets pcm_data rms_threshold ∧
          min_density ≤ density_at_gate pcm_data amplitude_gate)) ∧
    ((∀ s ∈ pcm_data, s = 0) → 0 < rms_threshold →
        is_voiced_chunk pcm_data rms_threshold min_density amplitude_gate = false) ∧
    ((∀ s ∈ pcm_data, s = 0) → worker_submits pcm_data = false) ∧
    ((VAD_RMS_THRESHOLD_INT : ℚ) ^ 2 < calculate_rms_sq pcm_data →
        VAD_SAMPLE_DENSITY < density_at_gate pcm_data VAD_AMPLITUDE_GATE →
        worker_submits pcm_data = true) := by
  have hlen : pcm_data.length ≠ 0 := by
    simpa [List.length_eq_zero] using hne
  have hzero : ∀ (t : Int) (d : ℚ) (g : Int), (∀ s ∈ pcm_data, s = 0) → 0 < t →
      is_voiced_chunk pcm_data t d g = false := by
    intro t d g hz ht
    have hrms : calculate_rms_sq pcm_data = 0 := calculate_rms_sq_of_zeros _ hz
    have htq : (0 : ℚ) < (t : ℚ) ^ 2 := by
      have : (0 : ℚ) < (t : ℚ) := by exact_mod_cast ht
      positivity
    unfold is_voiced_chunk
    rw [if_neg hlen, if_pos ⟨ht, by rw [hrms]; exact htq⟩]
  refine ⟨?_, hzero rms_threshold min_density amplitude_gate, ?_, ?_⟩
  · unfold is_voiced_chunk
    rw [if_neg hlen]
    by_cases hb : 0 < rms_threshold ∧ calculate_rms_sq pcm_data < (rms_threshold : ℚ) ^ 2
    · rw [if_pos hb]
      simp only [Bool.false_eq_true, false_iff]
      rintro ⟨hmeets, -⟩
      rcases hmeets with hle | hsq
      · omega
      · exact absurd hb.2 (not_lt.mpr hsq)
    · rw [if_neg hb]
      have hmeets : spec_rms_meets pcm_data rms_threshold := by
        rcases not_and_or.mp hb with h | h
        · exact Or.inl (by omega)
        · exact Or.inr (not_lt.mp h)
      simp [hmeets]
  · intro hz
    exact hzero VAD_RMS_THRESHOLD_INT VAD_SAMPLE_DENSITY VAD_AMPLITUDE_GATE hz
      (by norm_num [VAD_RMS_THRESHOLD_INT])
  · intro hrms hdens
    unfold worker_submits is_voiced_chunk
    rw [if_neg hlen, if_neg (by rintro ⟨-, hlt⟩; exact absurd hrms (not_lt.mpr hlt.le))]
    exact decide_eq_true hdens.le

/-- C2 witness: the amended gating theorem instantiated at the concrete
non-empty chunk `[2000]` with the widget's VAD constants. -/
theorem is_voiced_chunk_gating_witness :
    ([2000] : List Int) ≠ [] ∧
      ((is_voiced_chunk [2000] VAD_RMS_THRESHOLD_INT VAD_SAMPLE_DENSITY
            VAD_AMPLITUDE_GATE = true ↔
          (spec_rms_meets [2000] VAD_RMS_THRESHOLD_INT ∧
            VAD_SAMPLE_DENSITY ≤ density_at_gate [2000] VAD_AMPLITUDE_GATE)) ∧
        ((∀ s ∈ ([2000] : List Int), s = 0) → 0 < VAD_RMS_THRESHOLD_INT →
            is_voiced_chunk [2000] VAD_RMS_THRESHOLD_INT VAD_SAMPLE_DENSITY
              VAD_AMPLITUDE_GATE = false) ∧
        ((∀ s ∈ ([2000] : List Int), s = 0) → worker_submits [2000] = false) ∧
        ((VAD_RMS_THRESHOLD_INT : ℚ) ^ 2 < calculate_rms_sq [2000] →
            VAD_SAMPLE_DENSITY < density_at_gate [2000] VAD_AMPLITUDE_GATE →
            worker_submits [2000] = true)) :=
  ⟨by decide,
    is_voiced_chunk_gating [2000] VAD_RMS_THRESHOLD_INT VAD_SAMPLE_DENSITY
      VAD_AMPLITUDE_GATE (by decide)⟩

/-- C10: `AudioChunker.push` conserves samples in FIFO order. Writing
`combined` for the old buffer followed by the input: when `combined` holds at
least `chunk_samples` samples, push emits exactly its first `chunk_samples`
samples (the emitted chunk has exactly that length) and retains the
remainder; otherwise it emits nothing and retains `combined`; in both cases
the emitted chunk (if any) concatenated with the new buffer equals
`combined`, so no sample is dropped, duplicated or reordered. -/
theorem audioChunker_push_conserves (ck : AudioChunker) (pcm_data : List Int) :
    (ck.chunk_samples ≤ (ck.buffer ++ pcm_data).length →
        (ck.push pcm_data).1 = some ((ck.buffer ++ pcm_data).take ck.chunk_samples) ∧
        (ck.push pcm_data).2.buffer = (ck.buffer ++ pcm_data).drop ck.chunk_samples ∧
        ((ck.push pcm_data).1.getD []).length = ck.chunk_samples) ∧
    ((ck.buffer ++ pcm_data).length < ck.chunk_samples →
        (ck.push pcm_data).1 = none ∧
        (ck.push pcm_data).2.buffer = ck.buffer ++ pcm_data) ∧
    ((ck.push pcm_data).1.getD [] ++ (ck.push pcm_data).2.buffer =
        ck.buffer ++ pcm_data) := by
  by_cases h : ck.chunk_samples ≤ (ck.buffer ++ pcm_data).length
  · have hp : ck.push pcm_data =
        (some ((ck.buffer ++ pcm_data).take ck.chunk_samples),
          ⟨ck.sample_rate, ck.chunk_secs, ck.vad_rms, ck.chunk_samples,
            (ck.buffer ++ pcm_data).drop ck.chunk_samples⟩) := by
      simp only [AudioChunker.push]
      rw [if_pos h]
    rw [hp]
    refine ⟨fun _ => ⟨rfl, rfl, ?_⟩, fun hlt => absurd h (not_le.mpr hlt), ?_⟩
    · have h' : ck.chunk_samples ≤ ck.buffer.length + pcm_data.length := by
        simpa [List.length_append] using h
      simp only [Option.getD_some, List.length_take, List.length_append]
      omega
    · simp [List.take_append_drop]
  · have hp : ck.push pcm_data =
        (none, ⟨ck.sample_rate, ck.chunk_secs, ck.vad_rms, ck.chunk_samples,
          ck.buffer ++ pcm_data⟩) := by
      simp only [AudioChunker.push]
      rw [if_neg h]
    rw [hp]
    exact ⟨fun hle => absurd hle h, fun _ => ⟨rfl, rfl⟩, by simp⟩

/-- C10 witness: push on a chunker with `chunk_samples = 3`, buffer `[1, 2]`
and input `[3, 4]` emits `[1, 2, 3]` and keeps `[4]`. -/
theorem audioChunker_push_conserves_witness :
    (3 : Nat) ≤ (([1, 2] ++ [3, 4] : List Int)).length ∧
      ((AudioChunker.mk 48000 2 200 3 [1, 2]).push [3, 4]).1 =
          some (([1, 2] ++ [3, 4] : List Int).take 3) ∧
      ((AudioChunker.mk 48000 2 200 3 [1, 2]).push [3, 4]).2.buffer =
          ([1, 2] ++ [3, 4] : List Int).drop 3 ∧
      ((((AudioChunker.mk 48000 2 200 3 [1, 2]).push [3, 4]).1.getD []).length = 3) :=
  ⟨by decide,
    (audioChunker_push_conserves (AudioChunker.mk 48000 2 200 3 [1, 2]) [3, 4]).1
      (by decide)⟩

/-- C6: for every model name the estimator is a function of
`(audio_minutes, transcript_text)` whose total is the sum of input and output
cost, and it is non-decreasing in both the audio minutes and the transcript
character count: each of `input_cost`, `output_cost` and `total` is monotone. -/
theorem cost_estimate_sum_and_monotone (model_name : String) (m₁ m₂ : ℚ)
    (t₁ t₂ : String) (hm : m₁ ≤ m₂) (ht : t₁.length ≤ t₂.length) :
    (estimate_transcription_cost model_name m₁ t₁).total
        = (estimate_transcription_cost model_name m₁ t₁).input_cost
          + (estimate_transcription_cost model_name m₁ t₁).output_cost ∧
    (estimate_transcription_cost model_name m₁ t₁).input_cost
        ≤ (estimate_transcription_cost model_name m₂ t₂).input_cost ∧
    (estimate_transcription_cost model_name m₁ t₁).output_cost
        ≤ (estimate_transcription_cost model_name m₂ t₂).output_cost ∧
    (estimate_transcription_cost model_name m₁ t₁).total
        ≤ (estimate_transcription_cost model_name m₂ t₂).total := by
  have h1 : 0 ≤ (get_model_config model_name).input_cost_per_min := by
    unfold get_model_config whisper1Cost gpt4oMiniTranscribeCost
    split_ifs <;> norm_num
  have h2 : 0 ≤ (get_model_config model_name).output_cost_per_token := by
    unfold get_model_config whisper1Cost gpt4oMiniTranscribeCost
    split_ifs <;> norm_num
  have h3 : 0 ≤ (get_model_config model_name).output_tokens_per_char := by
    unfold get_model_config whisper1Cost gpt4oMiniTranscribeCost
    split_ifs <;> norm_num
  have hc : ((t₁.length : ℚ)) ≤ (t₂.length : ℚ) := by exact_mod_cast ht
  have hin : (estimate_transcription_cost model_name m₁ t₁).input_cost
      ≤ (estimate_transcription_cost model_name m₂ t₂).input_cost :=
    mul_le_mul_of_nonneg_right hm h1
  have hout : (estimate_transcription_cost model_name m₁ t₁).output_cost
      ≤ (estimate_transcription_cost model_name m₂ t₂).output_cost :=
    mul_le_mul_of_nonneg_right (mul_le_mul_of_nonneg_right hc h3) h2
  exact ⟨rfl, hin, hout, add_le_add hin hout⟩

/-- C6 witness: the estimator theorem instantiated for `"whisper-1"` with
zero versus one audio minute and an empty versus one-character transcript. -/
theorem cost_estimate_sum_and_monotone_witness :
    ((0 : ℚ) ≤ 1) ∧ ("".length ≤ "a".length) ∧
      ((estimate_transcription_cost "whisper-1" 0 "").total
          = (estimate_transcription_cost "whisper-1" 0 "").input_cost
            + (estimate_transcription_cost "whisper-1" 0 "").output_cost ∧
        (estimate_transcription_cost "whisper-1" 0 "").input_cost
            ≤ (estimate_transcription_cost "whisper-1" 1 "a").input_cost ∧
        (estimate_transcription_cost "whisper-1" 0 "").output_cost
            ≤ (estimate_transcription_cost "whisper-1" 1 "a").output_cost ∧
        (estimate_transcription_cost "whisper-1" 0 "").total
            ≤ (estimate_transcription_cost "whisper-1" 1 "a").total) :=
  ⟨zero_le_one, by decide,
    cost_estimate_sum_and_monotone "whisper-1" 0 1 "" "a" zero_le_one (by decide)⟩

/-- C9 counterexample: for the concrete segment with timestamp
`2025-01-01 10:00:00` and text `hello`, the persisted line is
`2025-01-01 10:00:00  hello`, not the claimed `[2025-01-01 10:00:00]  hello`;
indeed the whole saved file contains no `[` character at all. -/
theorem save_transcript_no_bracket_counterexample :
    format_segment ⟨"2025-01-01 10:00:00", "hello"⟩ = "2025-01-01 10:00:00  hello" ∧
    format_segment ⟨"2025-01-01 10:00:00", "hello"⟩ ≠ "[2025-01-01 10:00:00]  hello" ∧
    ¬ '[' ∈ (save_transcript_content "2025-01-01 10:00:05"
        "recording-20250101-100000.wav"
        (final_transcript [⟨"2025-01-01 10:00:00", "hello"⟩])).data :=
  ⟨rfl, by decide, by decide⟩

/-- Unfolding equation of `pyJoin` on a list with at least two elements. -/
theorem pyJoin_cons_cons (sep x y : String) (l : List String) :
    pyJoin sep (x :: y :: l) = x ++ sep ++ pyJoin sep (y :: l) := rfl

/-- Joining a non-empty prefix with a non-empty suffix splits around one
separator. -/
theorem pyJoin_append (sep : String) (xs : List String) (y : String)
    (ys : List String) (hxs : xs ≠ []) :
    pyJoin sep (xs ++ y :: ys) = pyJoin sep xs ++ sep ++ pyJoin sep (y :: ys) := by
  induction xs with
  | nil => cases hxs rfl
  | cons x xs ih =>
    cases xs with
    | nil => rfl
    | cons x' xs' =>
      rw [List.cons_append, List.cons_append, pyJoin_cons_cons,
        ← List.cons_append, ih (by simp), pyJoin_cons_cons]
      simp [String.append_assoc]

/-- The header literal of `_save_transcript` is exactly its lines joined by
newlines, plus the newline that separates the header from the transcript
body. -/
theorem transcript_header_eq_lines (ts wav_name : String) :
    transcript_header ts wav_name
      = pyJoin "\n" (transcript_header_lines ts wav_name) ++ "\n" := by
  simp only [transcript_header, transcript_header_lines, pyJoin,
    String.append_assoc, String.append_empty, String.empty_append]

/-- C9 (amended): for every non-empty segment list the transcript file
written at stop consists of the metadata header — title, timestamp, source
WAV file name, sample rate, model and format lines plus the separator row —
followed by one line per transcript segment in stored (chronological) order,
each line formatted as the plain timestamp, two spaces and the text (the
claimed square brackets around the timestamp are not written). -/
theorem save_transcript_line_layout (ts wav_name : String) (seg : Segment)
    (rest : List Segment) :
    save_transcript_content ts wav_name (final_transcript (seg :: rest))
      = pyJoin "\n" (transcript_header_lines ts wav_name
          ++ format_transcript_lines (seg :: rest)) := by
  have h9 : transcript_header_lines ts wav_name ≠ [] := by
    simp [transcript_header_lines]
  rw [save_transcript_content, transcript_header_eq_lines, final_transcript,
    format_transcript_lines, List.map_cons, pyJoin_append "\n" _ _ _ h9]

/-- C4 counterexample: a session stopped with zero frames delivered. The
worker never opens the writer, so no WAV file exists and `_stop_recording`
takes the `else` branch of `wav_path.exists()`: it reports the
file-missing message `❌ 錄音檔案不存在`, which is distinct from the claimed
no-speech outcome `⚠️ 錄音時間太短或未檢測到語音`. -/
theorem zero_frame_stop_counterexample :
    (audio_worker_run audio_worker_init []).writer = none ∧
    session_stop_status (audio_worker_run audio_worker_init []) "" =
      "❌ 錄音檔案不存在" ∧
    "❌ 錄音檔案不存在" ≠ "⚠️ 錄音時間太短或未檢測到語音" :=
  ⟨rfl, rfl, by decide⟩

/-- C4 (amended): in a session whose ingest queue delivers no real item
(only timeout wake-ups and the sentinel), the worker never opens the WAV
writer — no WAV file is created and `bytes_written` stays 0 — and `stop()`
reports the file-missing outcome (not the no-speech outcome); moreover, for
all inputs, the status reported at stop is one of exactly the three terminal
messages: success, too short / no speech, or recording file missing. -/
theorem zero_frame_stop_status (inputs : List (Option QItem))
    (h : ∀ x ∈ inputs, x = none) (tr : String) :
    (audio_worker_run audio_worker_init inputs).writer = none ∧
    (audio_worker_run audio_worker_init inputs).bytes_written = 0 ∧
    session_stop_status (audio_worker_run audio_worker_init inputs) tr =
      "❌ 錄音檔案不存在" ∧
    (∀ (ex : Bool) (sz : Nat) (t : String),
      stop_status_message ex sz t = "✅ 轉錄完成" ∨
      stop_status_message ex sz t = "⚠️ 錄音時間太短或未檢測到語音" ∨
      stop_status_message ex sz t = "❌ 錄音檔案不存在") := by
  have hrun : audio_worker_run audio_worker_init inputs = audio_worker_init := by
    cases inputs with
    | nil => rfl
    | cons x rest =>
      rw [h x (List.mem_cons_self x rest)]
      rfl
  refine ⟨by rw [hrun]; rfl, by rw [hrun]; rfl, by rw [hrun]; rfl, ?_⟩
  intro ex sz t
  unfold stop_status_message
  split_ifs <;> simp

/-- C4 witness: the zero-frame theorem applied to the concrete input
sequence consisting of the sentinel only. -/
theorem zero_frame_stop_status_witness :
    (∀ x ∈ ([none] : List (Option QItem)), x = none) ∧
      ((audio_worker_run audio_worker_init [none]).writer = none ∧
        (audio_worker_run audio_worker_init [none]).bytes_written = 0 ∧
        session_stop_status (audio_worker_run audio_worker_init [none]) "" =
          "❌ 錄音檔案不存在" ∧
        (∀ (ex : Bool) (sz : Nat) (t : String),
          stop_status_message ex sz t = "✅ 轉錄完成" ∨
          stop_status_message ex sz t = "⚠️ 錄音時間太短或未檢測到語音" ∨
          stop_status_message ex sz t = "❌ 錄音檔案不存在")) :=
  ⟨by simp, zero_frame_stop_status [none] (by simp) ""⟩

/-- Helper: once the worker has opened a writer, later items never change its
parameters. -/
theorem audio_worker_run_writer_some (w : WavParams) :
    ∀ (inputs : List (Option QItem)) (s : AudioWorkerState),
      s.writer = some w → (audio_worker_run s inputs).writer = some w := by
  intro inputs
  induction inputs with
  | nil => intro s hs; exact hs
  | cons x rest ih =>
    intro s hs
    cases x with
    | none => exact hs
    | some it =>
      exact ih _ (by simp [audio_worker_step, hs])

/-- Helper: the worker's byte counter accumulates exactly the byte lengths
of the dequeued items. -/
theorem audio_worker_run_bytes :
    ∀ (items : List QItem) (s : AudioWorkerState),
      (audio_worker_run s (items.map some)).bytes_written
        = s.bytes_written + (items.map pcm_bytes_len).sum := by
  intro items
  induction items with
  | nil => intro s; simp [audio_worker_run]
  | cons it rest ih =>
    intro s
    rw [List.map_cons, audio_worker_run, ih]
    simp [audio_worker_step]
    ring

/-- C3 counterexample: a capture transport negotiating 44100 Hz. The frame
reports `sample_rate = 44100`, but the queue item built by `audio_callback`
carries only `(pcm_bytes, rms)`, and on the first real item the transcription
widget's `_audio_worker` opens the WAV writer with
`setframerate(SAMPLE_RATE)` — the hardcoded 48000 — so the file is stamped
48000 Hz, not the detected 44100 Hz. -/
theorem wav_framerate_hardcoded_counterexample :
    (audio_worker_run audio_worker_init
        [some (audio_callback_item ⟨[0, 0], 44100⟩)]).writer
      = some ⟨1, 2, 48000⟩ ∧
    (⟨[0, 0], 44100⟩ : Frame).sample_rate = 44100 ∧
    (48000 : Nat) ≠ 44100 :=
  ⟨rfl, rfl, by decide⟩

/-- C3 (amended): on the first real queue item the transcription widget's
(and transcription page's) ingest worker opens the WAV writer as mono and
16-bit but at the hardcoded module constant `SAMPLE_RATE = 48000`, whatever
rate the frames reported; only the mic recorder page's worker opens the
writer at the detected sample rate taken from the first frame's reported
rate (falling back to the constant when the detected rate is 0). -/
theorem wav_open_params_by_worker (f : Frame) (it : QItem)
    (rest : List QItem) (hrate : f.sample_rate ≠ 0) :
    (audio_worker_run audio_worker_init (some it :: rest.map some)).writer
      = some widget_wav_open_params ∧
    widget_wav_open_params = ⟨1, SAMPLE_WIDTH, SAMPLE_RATE⟩ ∧
    recorder_wav_open_params (detected_rate_after_first_frame f)
      = ⟨1, SAMPLE_WIDTH, f.sample_rate⟩ := by
  refine ⟨?_, rfl, ?_⟩
  · rw [audio_worker_run]
    exact audio_worker_run_writer_some widget_wav_open_params _ _ rfl
  · unfold recorder_wav_open_params detected_rate_after_first_frame
    rw [if_pos hrate]

/-- C3 witness: the worker-parameter theorem applied to a 44100 Hz frame, a
concrete first queue item and an empty remainder of the queue. -/
theorem wav_open_params_by_worker_witness :
    (⟨[7], 44100⟩ : Frame).sample_rate ≠ 0 ∧
      ((audio_worker_run audio_worker_init
          (some ⟨[7], 0⟩ :: ([] : List QItem).map some)).writer
        = some widget_wav_open_params ∧
      widget_wav_open_params = ⟨1, SAMPLE_WIDTH, SAMPLE_RATE⟩ ∧
      recorder_wav_open_params (detected_rate_after_first_frame ⟨[7], 44100⟩)
        = ⟨1, SAMPLE_WIDTH, (⟨[7], 44100⟩ : Frame).sample_rate⟩) :=
  ⟨by decide, wav_open_params_by_worker ⟨[7], 44100⟩ ⟨[7], 0⟩ [] (by decide)⟩

/-- C5: pushing a frame into the bounded ingest queue never blocks or raises
— with a free slot the item is appended, with a full queue (128 items) the
item is silently dropped and the queue is unchanged — so a queue that
respects the capacity keeps respecting it; and the worker's `bytes_written`
counts exactly the bytes of the items it actually dequeues and writes, so
frames dropped by the callback (never enqueued) are never counted. -/
theorem ingest_queue_push_and_bytes (q : List QItem) (it : QItem)
    (items : List QItem) :
    (q.length < 128 → audio_callback_put q it = q ++ [it]) ∧
    (128 ≤ q.length → audio_callback_put q it = q) ∧
    (q.length ≤ 128 → (audio_callback_put q it).length ≤ 128) ∧
    ((audio_worker_run audio_worker_init (items.map some)).bytes_written
      = (items.map pcm_bytes_len).sum) := by
  refine ⟨?_, ?_, ?_, ?_⟩
  · intro h
    unfold audio_callback_put
    rw [if_pos h]
  · intro h
    unfold audio_callback_put
    rw [if_neg (not_lt.mpr h)]
  · intro h
    unfold audio_callback_put
    split
    · simp
      omega
    · exact h
  · rw [audio_worker_run_bytes]
    simp [audio_worker_init]

/-- C5 witness: the queue/byte theorem at a queue of one item, a fresh item,
and a two-item dequeue sequence. -/
theorem ingest_queue_push_and_bytes_witness :
    (([⟨[1], 0⟩] : List QItem).length < 128) ∧
      (audio_callback_put [⟨[1], 0⟩] ⟨[2, 3], 0⟩ = [⟨[1], 0⟩] ++ [⟨[2, 3], 0⟩]) ∧
      ((audio_worker_run audio_worker_init
          (([⟨[1], 0⟩, ⟨[2, 3], 0⟩] : List QItem).map some)).bytes_written
        = (([⟨[1], 0⟩, ⟨[2, 3], 0⟩] : List QItem).map pcm_bytes_len).sum) :=
  ⟨by decide,
    (ingest_queue_push_and_bytes [⟨[1], 0⟩] ⟨[2, 3], 0⟩
        [⟨[1], 0⟩, ⟨[2, 3], 0⟩]).1 (by decide),
    (ingest_queue_push_and_bytes [⟨[1], 0⟩] ⟨[2, 3], 0⟩
        [⟨[1], 0⟩, ⟨[2, 3], 0⟩]).2.2.2⟩

/-- C1: while a token is active, every `start()` call — and hence every
sequence of `start()` calls — is a no-op: it returns the state completely
unchanged (active token, active model, and all per-token queues, buffers,
segment lists, stats, timers, stop events and worker entries), so the active
token never changes across `start()` calls; at most one token is active at
any time by the `Option` shape of `active_token`. -/
theorem start_recording_single_flight (s : RegistryState) (tk : Nat)
    (hactive : s.active_token = some tk) :
    (∀ (token : Nat) (model_name wav_path : String) (start_time : ℚ),
        start_recording s token model_name wav_path start_time = s) ∧
    (∀ calls : List (Nat × String × String × ℚ),
        apply_start_calls s calls = s ∧
        (apply_start_calls s calls).active_token = some tk) := by
  have hnoop : ∀ (token : Nat) (model_name wav_path : String) (start_time : ℚ),
      start_recording s token model_name wav_path start_time = s := by
    intro token model_name wav_path start_time
    unfold start_recording
    rw [if_pos (by rw [hactive]; rfl)]
  refine ⟨hnoop, ?_⟩
  intro calls
  have hseq : apply_start_calls s calls = s := by
    induction calls with
    | nil => rfl
    | cons c rest ih =>
      obtain ⟨token, model_name, wav_path, start_time⟩ := c
      rw [apply_start_calls, hnoop]
      exact ih
  exact ⟨hseq, by rw [hseq, hactive]⟩

/-- C1 witness: with token 1 active, a duplicate `start()` with a different
token (and a whole sequence of such calls) leaves the registry unchanged and
token 1 active. -/
theorem start_recording_single_flight_witness :
    registry_with_session.active_token = some 1 ∧
      (start_recording registry_with_session 2 "whisper-1" "other.wav" 5 =
          registry_with_session ∧
        apply_start_calls registry_with_session
            [(2, "whisper-1", "other.wav", 5), (3, "gpt-4o-mini-transcribe", "x.wav", 9)] =
          registry_with_session) :=
  ⟨rfl,
    (start_recording_single_flight registry_with_session 1 rfl).1 2 "whisper-1"
      "other.wav" 5,
    ((start_recording_single_flight registry_with_session 1 rfl).2
        [(2, "whisper-1", "other.wav", 5), (3, "gpt-4o-mini-transcribe", "x.wav", 9)]).1⟩

/-- C7: at the drain deadline, a non-empty transcription buffer is drained
atomically — the produced chunk is the concatenation, in append order, of
exactly the sample arrays buffered since the previous drain, and the buffer
is left empty (so every appended array ends up in exactly one chunk) — while
an empty buffer produces no chunk and only resets the drain timer. -/
theorem transcription_drain_atomic (buffer : List (List Int))
    (last_time current_time : ℚ)
    (h : TRANSCRIPTION_CHUNK_DURATION ≤ current_time - last_time) :
    (buffer ≠ [] →
        drain_step buffer last_time current_time
          = (some buffer.flatten, [], current_time)) ∧
    (buffer = [] →
        drain_step buffer last_time current_time = (none, buffer, current_time)) := by
  constructor
  · intro hne
    unfold drain_step
    rw [if_pos h, if_neg hne]
  · intro he
    unfold drain_step
    rw [if_pos h, if_pos he]

/-- C7 witness: the drain theorem at the buffer `[[5], [6, 7]]` with the
deadline exactly reached (`last_time = 0`, `current_time = 3`); the chunk is
`[5, 6, 7]` and the buffer is emptied. -/
theorem transcription_drain_atomic_witness :
    TRANSCRIPTION_CHUNK_DURATION ≤ (3 : ℚ) - 0 ∧
      drain_step [[5], [6, 7]] 0 3 = (some ([[5], [6, 7]] : List (List Int)).flatten, [], 3) :=
  ⟨by simp [TRANSCRIPTION_CHUNK_DURATION],
    (transcription_drain_atomic [[5], [6, 7]] 0 3
        (by simp [TRANSCRIPTION_CHUNK_DURATION])).1 (by decide)⟩

/-- C8: when the transcription API call for a chunk raises, that iteration
appends nothing — the token's segment list is unchanged — and the drained
chunk is not re-queued (the buffer is empty after the drain, so there is no
retry); the worker loop continues with the next poll cycle, and it
terminates only on observing its stop event: a cycle with `stop_set` false
never ends the loop, a cycle with `stop_set` true ends it at once. -/
theorem transcription_api_error_resilient (s2t : String → String) (s : TState)
    (c : TCycle) (rest : List TCycle) (herr : c.api = ApiOutcome.apiError) :
    (transcription_cycle s2t s c).segments = s.segments ∧
    (TRANSCRIPTION_CHUNK_DURATION ≤ c.current_time - s.last_time →
        s.buffer ++ c.appended ≠ [] →
        (transcription_cycle s2t s c).buffer = []) ∧
    (c.stop_set = false →
        transcription_worker_run s2t s (c :: rest)
          = transcription_worker_run s2t (transcription_cycle s2t s c) rest) ∧
    (c.stop_set = true → transcription_worker_run s2t s (c :: rest) = s) := by
  refine ⟨?_, ?_, ?_, ?_⟩
  · simp only [transcription_cycle, herr]
    split_ifs <;> rfl
  · intro helapsed hne
    simp only [transcription_cycle, herr]
    rw [if_pos helapsed, if_neg hne]
    split_ifs <;> rfl
  · intro hstop
    simp [transcription_worker_run, hstop]
  · intro hstop
    simp [transcription_worker_run, hstop]

/-- C8 witness: the resilience theorem at a concrete state with one buffered
voiced array, a poll cycle at the deadline whose API call raises, and the
identity script conversion. -/
theorem transcription_api_error_resilient_witness :
    (⟨false, 3, [], ApiOutcome.apiError, "2025-01-01 00:00:03"⟩ : TCycle).api
        = ApiOutcome.apiError ∧
      ((transcription_cycle id ⟨[], [[2000]], 0⟩
          ⟨false, 3, [], ApiOutcome.apiError, "2025-01-01 00:00:03"⟩).segments
        = ([] : List Segment) ∧
      (TRANSCRIPTION_CHUNK_DURATION ≤ (3 : ℚ) - (0 : ℚ) →
          ([[2000]] : List (List Int)) ++ [] ≠ [] →
          (transcription_cycle id ⟨[], [[2000]], 0⟩
              ⟨false, 3, [], ApiOutcome.apiError, "2025-01-01 00:00:03"⟩).buffer = []) ∧
      (false = false →
          transcription_worker_run id ⟨[], [[2000]], 0⟩
              [⟨false, 3, [], ApiOutcome.apiError, "2025-01-01 00:00:03"⟩]
            = transcription_worker_run id
                (transcription_cycle id ⟨[], [[2000]], 0⟩
                  ⟨false, 3, [], ApiOutcome.apiError, "2025-01-01 00:00:03"⟩) []) ∧
      (false = true →
          transcription_worker_run id ⟨[], [[2000]], 0⟩
              [⟨false, 3, [], ApiOutcome.apiError, "2025-01-01 00:00:03"⟩]
            = ⟨[], [[2000]], 0⟩)) :=
  ⟨rfl,
    transcription_api_error_resilient id ⟨[], [[2000]], 0⟩
      ⟨false, 3, [], ApiOutcome.apiError, "2025-01-01 00:00:03"⟩ [] rfl⟩
